import Mathlib

/-!
Shallow embedding of the zkteco-logger program (src/main.py).

The embedding covers the parts of the program the specification talks
about: the per-device session state (the mutable fields conn and status
of class ZKTecoDevice), the live-capture loop body (get_live_logs), the
delivery client (send_log_to_api), and the failed-event store
(store_failed_log and process_failed_logs) operating on the persisted
failed_logs.json snapshot.

The persisted file is modelled as a Snapshot: the file may be missing,
may hold unparseable bytes (json.load raises JSONDecodeError), or may
hold a well-formed mapping from device ip to an ordered list of failed
records.  A well-formed mapping is an insertion-ordered association list,
matching the behaviour of a Python dict.  External effects (HTTP
outcomes, driver outcomes) are inputs to the functions; logging and
driver calls are recorded as explicit action values so that theorems can
speak about which calls the code performs.
-/

/-- An attendance event as the program serializes it: the fields taken
from the driver record (user id, timestamp already formatted as a
string, status).  The device id is added by the session at send time and
is not part of the event. -/
structure AttEvent where
  user_id : Nat
  timestamp : String
  status : Nat
deriving DecidableEq, Repr

/-- One entry of the persisted failure queue: store_failed_log appends
objects of the shape with fields log_time and log. -/
structure FailedRec where
  log_time : String
  log : AttEvent
deriving DecidableEq, Repr

/-- A well-formed persisted store: device ip to ordered pending records,
in dict insertion order. -/
abbrev Store := List (String × List FailedRec)

/-- The state of the failed_logs.json file. -/
inductive Snapshot where
  | missing : Snapshot
  | malformed : Snapshot
  | good : Store → Snapshot
deriving DecidableEq, Repr

/-- First-match lookup of a key, as a Python dict read failed_logs[ip]. -/
def lookupStore : Store → String → Option (List FailedRec)
  | [], _ => none
  | (k, v) :: t, ip => if k = ip then some v else lookupStore t ip

/-- Write under a key as a Python dict does: replace the value in place
when the key is present, insert at the end when it is absent. -/
def setKey : Store → String → List FailedRec → Store
  | [], ip, v => [(ip, v)]
  | (k, w) :: t, ip, v => if k = ip then (ip, v) :: t else (k, w) :: setKey t ip v

/-- Delete a key, as del failed_logs[ip]. -/
def delKey : Store → String → Store
  | [], _ => []
  | (k, w) :: t, ip => if k = ip then delKey t ip else (k, w) :: delKey t ip

/-- Remove the first occurrence of an element, as Python list.remove. -/
def removeFirst : List FailedRec → FailedRec → List FailedRec
  | [], _ => []
  | a :: t, x => if a = x then t else a :: removeFirst t x

/-- The pending records of a device readable from the snapshot: none
when the file is missing or unreadable or the key is absent. -/
def pendingOf (snap : Snapshot) (ip : String) : List FailedRec :=
  match snap with
  | Snapshot.good s => (lookupStore s ip).getD []
  | _ => []

/-- The entry of a device in the snapshot, key presence included. -/
def lookupSnap (snap : Snapshot) (ip : String) : Option (List FailedRec) :=
  match snap with
  | Snapshot.good s => lookupStore s ip
  | _ => none

/-- ZKTecoDevice.store_failed_log: reads the file (a missing file means
an empty dict), appends the record under the device ip via
setdefault(ip, []).append, and rewrites the file.  When json.load
raises, the exception is caught, the error is logged, and nothing is
written, so the record is lost.  The Bool tells whether the file was
rewritten. -/
def store_failed_log (snap : Snapshot) (ip : String) (rec : FailedRec) :
    Snapshot × Bool :=
  match snap with
  | Snapshot.missing => (Snapshot.good (setKey [] ip [rec]), true)
  | Snapshot.malformed => (Snapshot.malformed, false)
  | Snapshot.good s =>
      (Snapshot.good (setKey s ip ((lookupStore s ip).getD [] ++ [rec])), true)

/-- Outcome of one ZKTecoDevice.process_failed_logs sweep: the snapshot
after the call, the events the sweep delivered (send_log_to_api calls
that returned True, in call order), whether the file was rewritten, and
whether a JSON decode error was logged. -/
structure SweepResult where
  snap : Snapshot
  delivered : List AttEvent
  wrote : Bool
  loggedDecodeError : Bool
deriving DecidableEq, Repr

/-- ZKTecoDevice.process_failed_logs: returns at once when the file is
missing; on a JSON decode error logs and returns without writing; when
the device ip is not a key, returns without writing.  Otherwise it calls
send_log_to_api on every pending record in order, removes from the list
the first occurrence of each record whose send succeeded, deletes the
key when the list became empty and stores the filtered list otherwise,
and rewrites the file.  The delivery outcome is a function of the
recorded event, because the send is made on Attendance(**log["log"]). -/
def process_failed_logs (deliver : AttEvent → Bool) (ip : String)
    (snap : Snapshot) : SweepResult :=
  match snap with
  | Snapshot.missing =>
      { snap := Snapshot.missing, delivered := [], wrote := false,
        loggedDecodeError := false }
  | Snapshot.malformed =>
      { snap := Snapshot.malformed, delivered := [], wrote := false,
        loggedDecodeError := true }
  | Snapshot.good s =>
      match lookupStore s ip with
      | none =>
          { snap := Snapshot.good s, delivered := [], wrote := false,
            loggedDecodeError := false }
      | some logs =>
          let success := logs.filter (fun r => deliver r.log)
          let remaining := success.foldl removeFirst logs
          let s2 := if remaining.isEmpty then delKey s ip else setKey s ip remaining
          { snap := Snapshot.good s2, delivered := success.map (fun r => r.log),
            wrote := true, loggedDecodeError := false }

/-- Status string the code assigns on a successful connect. -/
def statusConnected : String := "Connected"

/-- Status string the code assigns when connect raises. -/
def statusConnFailed : String := "Connection Failed"

/-- Status string the code assigns in disconnect. -/
def statusDisconnected : String := "Disconnected"

/-- The mutable per-device session state: whether self.conn holds a
truthy connection object, and the self.status string. -/
structure DevState where
  conn : Bool
  status : String
deriving DecidableEq, Repr

/-- ZKTecoDevice.__init__: conn starts as None and status is copied
from the configuration record device_data. -/
def initDevice (cfgStatus : String) : DevState :=
  { conn := false, status := cfgStatus }

/-- ZKTecoDevice.connect, with the driver outcome as input: on success
self.conn is set and status becomes Connected; when zk.connect raises,
the assignment to self.conn never runs (conn keeps its old value) and
status becomes Connection Failed.  Returns the new state and the Bool
the method returns. -/
def connectFn (ok : Bool) (st : DevState) : DevState × Bool :=
  if ok then ({ conn := true, status := statusConnected }, true)
  else ({ st with status := statusConnFailed }, false)

/-- ZKTecoDevice.disconnect: when self.conn is truthy, calls
conn.disconnect on the driver and sets status Disconnected; self.conn is
not cleared.  When conn is falsy, does nothing.  The Bool tells whether
the driver disconnect call was made. -/
def disconnectFn (st : DevState) : DevState × Bool :=
  if st.conn then ({ st with status := statusDisconnected }, true)
  else (st, false)

/-- Outcome of the one HTTP request send_log_to_api makes: a response
with some status code, or a transport error raising RequestException. -/
inductive HttpOutcome where
  | resp : Nat → HttpOutcome
  | transportError : HttpOutcome
deriving DecidableEq, Repr

/-- ZKTecoDevice.send_log_to_api: posts once and returns True exactly
when response.status_code == 200; any other code, and any
RequestException, yields False. -/
def send_log_to_api (o : HttpOutcome) : Bool :=
  match o with
  | HttpOutcome.resp c => c == 200
  | HttpOutcome.transportError => false

/-- A status code in the 2xx success class. -/
def is2xx (c : Nat) : Bool := 200 ≤ c && c < 300

/-- A non-None raw record yielded by live_capture: either an Attendance
instance carrying an event, or a value of some other type (tagged so
distinct unknown values can be told apart). -/
inductive RawLog where
  | att : AttEvent → RawLog
  | unknown : Nat → RawLog
deriving DecidableEq, Repr

/-- The observable calls the batch loop body makes for one record. -/
inductive BatchAction where
  | index : AttEvent → BatchAction
  | send : AttEvent → BatchAction
  | store : AttEvent → BatchAction
  | warn : Nat → BatchAction
deriving DecidableEq, Repr

/-- The body of the for-loop over one captured record: an Attendance is
recorded in device_logs, sent, and stored on delivery failure; any other
value only produces a warning log line. -/
def processLog (deliver : AttEvent → Bool) (l : RawLog) : List BatchAction :=
  match l with
  | RawLog.att a =>
      [BatchAction.index a, BatchAction.send a] ++
        (if deliver a then [] else [BatchAction.store a])
  | RawLog.unknown t => [BatchAction.warn t]

/-- The for-loop of get_live_logs over a captured batch: None entries
are filtered out by the generator expression, the rest are processed in
order. -/
def processBatch (deliver : AttEvent → Bool) (batch : List (Option RawLog)) :
    List BatchAction :=
  (batch.filterMap id).flatMap (processLog deliver)

/-- What one live_capture call did: raised, returned None, or returned
an iterable of raw records (possibly containing None entries). -/
inductive CaptureOutcome where
  | fault : CaptureOutcome
  | noneResult : CaptureOutcome
  | batch : List (Option RawLog) → CaptureOutcome

/-- The observable steps of one get_live_logs iteration. -/
inductive LoopAction where
  | connectAttempt : Bool → LoopAction
  | captureCall : LoopAction
  | logError : LoopAction
  | sleep : Nat → LoopAction
  | batchAct : BatchAction → LoopAction
deriving DecidableEq, Repr

/-- The capture part of one loop iteration, reached when self.conn is
truthy (or connect just succeeded): a raised exception is caught at the
loop level, logged, and followed by a 10s sleep with the state left as
it is; a None result sleeps 1s; a batch is processed, then 1s extra
sleep when no non-None record was iterated, then the fixed 1s sleep. -/
def capturePhase (deliver : AttEvent → Bool) (cap : CaptureOutcome)
    (st : DevState) : DevState × List LoopAction :=
  match cap with
  | CaptureOutcome.fault =>
      (st, [LoopAction.captureCall, LoopAction.logError, LoopAction.sleep 10])
  | CaptureOutcome.noneResult =>
      (st, [LoopAction.captureCall, LoopAction.sleep 1])
  | CaptureOutcome.batch ls =>
      (st, LoopAction.captureCall ::
        (processBatch deliver ls).map LoopAction.batchAct ++
        (if (ls.filterMap id).isEmpty then [LoopAction.sleep 1] else []) ++
        [LoopAction.sleep 1])

/-- One iteration of the while-True loop of get_live_logs.  The guard is
`if not self.conn and not self.connect()`: with a truthy self.conn the
connect call is skipped entirely and live_capture runs at once; with a
falsy conn a failed connect sleeps 10s and restarts the loop, a
successful one falls through to live_capture. -/
def loopIter (connectOk : Bool) (deliver : AttEvent → Bool)
    (cap : CaptureOutcome) (st : DevState) : DevState × List LoopAction :=
  if st.conn then
    capturePhase deliver cap st
  else
    let (st1, ok) := connectFn connectOk st
    if ok then
      let (st2, acts) := capturePhase deliver cap st1
      (st2, LoopAction.connectAttempt connectOk :: acts)
    else
      (st1, [LoopAction.connectAttempt connectOk, LoopAction.sleep 10])

/-- Modelled from the spec: the legal status edges of the state machine
the specification describes in its section 4.1, written over the status
strings the code uses ("Connecting" never occurs in the code; it is the
spec's name for an intermediate state).  This definition follows the
spec's words, for comparison with the code's transitions. -/
def specLegalEdge (a b : String) : Bool :=
  (a == "Disconnected" && b == "Connecting") ||
  (a == "Connecting" && b == "Connected") ||
  (a == "Connected" && b == "Connection Failed") ||
  (a == "Connection Failed" && b == "Disconnected")

theorem removeFirst_cons_self (a : FailedRec) (t : List FailedRec) :
    removeFirst (a :: t) a = t := by
  simp [removeFirst]

theorem foldl_removeFirst_of_ne (sub : List FailedRec) (a : FailedRec)
    (t : List FailedRec) (h : ∀ s ∈ sub, s ≠ a) :
    List.foldl removeFirst (a :: t) sub = a :: List.foldl removeFirst t sub := by
  induction sub generalizing t with
  | nil => rfl
  | cons s sub ih =>
      have hsa : a ≠ s := fun he => (h s (by simp)) he.symm
      simp only [List.foldl_cons]
      rw [show removeFirst (a :: t) s = a :: removeFirst t s by
        simp [removeFirst, hsa]]
      exact ih (removeFirst t s) (fun x hx => h x (by simp [hx]))

theorem foldl_removeFirst_filter (p : FailedRec → Bool) (logs : List FailedRec) :
    List.foldl removeFirst logs (logs.filter p) =
      logs.filter (fun r => !(p r)) := by
  induction logs with
  | nil => rfl
  | cons a t ih =>
      by_cases hp : p a = true
      · rw [List.filter_cons_of_pos hp, List.foldl_cons, removeFirst_cons_self,
          ih, List.filter_cons_of_neg (by simp [hp])]
      · have hne : ∀ s ∈ t.filter p, s ≠ a := by
          intro s hs he
          rcases List.mem_filter.mp hs with ⟨_, hps⟩
          exact hp (he ▸ hps)
        rw [List.filter_cons_of_neg (by simpa using hp),
          foldl_removeFirst_of_ne _ _ _ hne, ih,
          List.filter_cons_of_pos (by simp [Bool.not_eq_true, hp]),]

theorem lookupStore_setKey_self (s : Store) (ip : String) (v : List FailedRec) :
    lookupStore (setKey s ip v) ip = some v := by
  induction s with
  | nil => simp [setKey, lookupStore]
  | cons kv t ih =>
      obtain ⟨k, w⟩ := kv
      by_cases hk : k = ip
      · simp [setKey, hk, lookupStore]
      · simp [setKey, hk, lookupStore, ih]

theorem lookupStore_setKey_ne (s : Store) (a b : String) (v : List FailedRec)
    (h : b ≠ a) : lookupStore (setKey s a v) b = lookupStore s b := by
  induction s with
  | nil => simp [setKey, lookupStore, Ne.symm h]
  | cons kv t ih =>
      obtain ⟨k, w⟩ := kv
      by_cases hk : k = a
      · subst hk
        simp [setKey, lookupStore, Ne.symm h]
      · by_cases hb : k = b
        · simp [setKey, hk, lookupStore, hb, h]
        · simp [setKey, hk, lookupStore, hb, ih]

theorem lookupStore_delKey_self (s : Store) (ip : String) :
    lookupStore (delKey s ip) ip = none := by
  induction s with
  | nil => simp [delKey, lookupStore]
  | cons kv t ih =>
      obtain ⟨k, w⟩ := kv
      by_cases hk : k = ip
      · simp [delKey, hk, ih]
      · simp [delKey, hk, lookupStore, ih]

theorem lookupStore_delKey_ne (s : Store) (a b : String) (h : b ≠ a) :
    lookupStore (delKey s a) b = lookupStore s b := by
  induction s with
  | nil => simp [delKey]
  | cons kv t ih =>
      obtain ⟨k, w⟩ := kv
      by_cases hk : k = a
      · subst hk
        simp [delKey, lookupStore, Ne.symm h, ih]
      · simp [delKey, hk, lookupStore, ih]

theorem pendingOf_process_good (deliver : AttEvent → Bool) (ip : String)
    (s : Store) (logs : List FailedRec) (h : lookupStore s ip = some logs) :
    pendingOf (process_failed_logs deliver ip (Snapshot.good s)).snap ip =
      logs.filter (fun r => !(deliver r.log)) := by
  have hrem := foldl_removeFirst_filter (fun r => deliver r.log) logs
  simp only [process_failed_logs, h, hrem]
  by_cases he : logs.filter (fun r => !(deliver r.log)) = []
  · rw [if_pos (by simp [he])]
    simp [pendingOf, lookupStore_delKey_self, he]
  · rw [if_neg (by simp [he])]
    simp [pendingOf, lookupStore_setKey_self]

/-- C4: when the persisted failure-queue snapshot is malformed
(json.load raises) the sweep logs the decode error and returns without
raising and without writing: the snapshot is unchanged and nothing is
delivered, so the previously persisted records of every device are left
as they are; a missing file likewise causes an immediate return with no
write. -/
theorem c4_malformed_sweep_noop (deliver : AttEvent → Bool) (ip : String) :
    process_failed_logs deliver ip Snapshot.malformed =
      { snap := Snapshot.malformed, delivered := [], wrote := false,
        loggedDecodeError := true } ∧
    process_failed_logs deliver ip Snapshot.missing =
      { snap := Snapshot.missing, delivered := [], wrote := false,
        loggedDecodeError := false } :=
  ⟨rfl, rfl⟩

/-- C8 counterexample: status code 201 is in the 2xx class, yet
send_log_to_api reports failure, refuting the claim that every response
with a 2xx status code yields success. -/
theorem c8_counterexample :
    is2xx 201 = true ∧ send_log_to_api (HttpOutcome.resp 201) = false := by
  decide

/-- C8 amended: send_log_to_api returns success exactly for a response
with status code exactly 200; any other status code, and any transport
error, is a failure.  The function makes one request and never retries,
which the model reflects by deciding from a single HttpOutcome. -/
theorem c8_send_success_iff_200 (o : HttpOutcome) :
    send_log_to_api o = true ↔ o = HttpOutcome.resp 200 := by
  cases o with
  | resp c => simp [send_log_to_api]
  | transportError => simp [send_log_to_api]

/-- C7 counterexample: a device built from a configuration record whose
status field is "Active" does not start at Disconnected, and a
successful connect moves status straight from Disconnected to Connected,
an edge the claimed cycle does not contain (the code never assigns a
Connecting status). -/
theorem c7_counterexample :
    (initDevice "Active").status ≠ statusDisconnected ∧
    (connectFn true (initDevice statusDisconnected)).1.status = statusConnected ∧
    specLegalEdge statusDisconnected statusConnected = false := by
  decide

/-- C7 amended: status starts at the value of the configuration record,
and the only mutations are connect, which sets Connected on success and
Connection Failed on failure, and disconnect, which sets Disconnected
when a session is open and leaves status untouched otherwise; the code
has no Connecting state, so connect moves status directly from
Disconnected to Connected. -/
theorem c7_status_transitions (cfg : String) (ok : Bool) (st : DevState) :
    (initDevice cfg).status = cfg ∧
    (connectFn ok st).1.status =
      (if ok then statusConnected else statusConnFailed) ∧
    (disconnectFn st).1.status =
      (if st.conn then statusDisconnected else st.status) := by
  refine ⟨rfl, ?_, ?_⟩
  · cases ok <;> simp [connectFn]
  · by_cases h : st.conn <;> simp [disconnectFn, h]

/-- C10 counterexample: starting from a connected session, the first
disconnect call closes the driver session, and because self.conn is
never cleared a second disconnect call closes the driver session again,
refuting the claim that the driver session is not closed a second
time. -/
theorem c10_counterexample :
    (disconnectFn ⟨true, statusConnected⟩).2 = true ∧
    (disconnectFn (disconnectFn ⟨true, statusConnected⟩).1).2 = true := by
  decide

/-- C10 amended: disconnect on a session that was never opened (conn is
None) is a safe no-op; on an open session one call sets status
Disconnected but leaves conn set, so a second call invokes the driver
disconnect again; the device state after two calls still equals the
state after one. -/
theorem c10_disconnect_props (st : DevState) :
    (st.conn = false → disconnectFn st = (st, false)) ∧
    (disconnectFn (disconnectFn st).1).1 = (disconnectFn st).1 ∧
    (st.conn = true → (disconnectFn st).1.status = statusDisconnected ∧
      (disconnectFn (disconnectFn st).1).2 = true) := by
  refine ⟨fun h => ?_, ?_, fun h => ⟨?_, ?_⟩⟩
  · simp [disconnectFn, h]
  · by_cases h : st.conn <;> simp [disconnectFn, h]
  · simp [disconnectFn, h]
  · simp [disconnectFn, h]

/-- C10 witness: the amended disconnect facts at concrete states, one
never connected and one connected. -/
theorem c10_disconnect_props_witness :
    disconnectFn ⟨false, "Unknown"⟩ = (⟨false, "Unknown"⟩, false) ∧
    (disconnectFn ⟨true, statusConnected⟩).1.status = statusDisconnected :=
  ⟨(c10_disconnect_props ⟨false, "Unknown"⟩).1 rfl,
    ((c10_disconnect_props ⟨true, statusConnected⟩).2.2 rfl).1⟩

/-- C5 counterexample: in the store state where the device key is
present with an empty pending list the device has no pending records,
yet the sweep deletes the key and rewrites the file, mutating the
snapshot. -/
theorem c5_counterexample :
    (process_failed_logs (fun _ => true) "10.0.0.1"
        (Snapshot.good [("10.0.0.1", [])])).snap ≠
      Snapshot.good [("10.0.0.1", [])] ∧
    (process_failed_logs (fun _ => true) "10.0.0.1"
        (Snapshot.good [("10.0.0.1", [])])).wrote = true := by
  decide

/-- C5 amended: when the device key is absent from a well-formed
snapshot, and when the file is missing, the sweep performs no store
mutation at all (snapshot identical, no write); when the key is present
with an empty pending list, the sweep deletes the key and rewrites the
file. -/
theorem c5_no_pending_no_write (deliver : AttEvent → Bool) (ip : String)
    (s : Store) :
    (lookupStore s ip = none →
      process_failed_logs deliver ip (Snapshot.good s) =
        { snap := Snapshot.good s, delivered := [], wrote := false,
          loggedDecodeError := false }) ∧
    process_failed_logs deliver ip Snapshot.missing =
      { snap := Snapshot.missing, delivered := [], wrote := false,
        loggedDecodeError := false } ∧
    (lookupStore s ip = some [] →
      process_failed_logs deliver ip (Snapshot.good s) =
        { snap := Snapshot.good (delKey s ip), delivered := [], wrote := true,
          loggedDecodeError := false }) := by
  refine ⟨fun h => ?_, rfl, fun h => ?_⟩
  · simp [process_failed_logs, h]
  · simp [process_failed_logs, h]

/-- C5 witness: the amended no-mutation facts at a concrete store whose
only key is another device. -/
theorem c5_no_pending_no_write_witness :
    process_failed_logs (fun _ => false) "10.0.0.1"
        (Snapshot.good [("10.0.0.2", [])]) =
      { snap := Snapshot.good [("10.0.0.2", [])], delivered := [],
        wrote := false, loggedDecodeError := false } ∧
    process_failed_logs (fun _ => false) "10.0.0.2"
        (Snapshot.good [("10.0.0.2", [])]) =
      { snap := Snapshot.good [], delivered := [], wrote := true,
        loggedDecodeError := false } := by
  refine ⟨(c5_no_pending_no_write (fun _ => false) "10.0.0.1"
      [("10.0.0.2", [])]).1 (by decide), ?_⟩
  have h := (c5_no_pending_no_write (fun _ => false) "10.0.0.2"
      [("10.0.0.2", [])]).2.2 (by decide)
  simpa [delKey] using h

/-- Number of occurrences of an event in a list of events. -/
def countEv (e : AttEvent) (l : List AttEvent) : Nat :=
  (l.filter (fun x => decide (x = e))).length

theorem countEv_append (e : AttEvent) (l1 l2 : List AttEvent) :
    countEv e (l1 ++ l2) = countEv e l1 + countEv e l2 := by
  simp [countEv, List.filter_append]

theorem countEv_eq_zero (e : AttEvent) (l : List AttEvent)
    (h : ∀ x ∈ l, x ≠ e) : countEv e l = 0 := by
  simp only [countEv, List.length_eq_zero]
  rw [List.filter_eq_nil_iff]
  intro a ha
  simp [h a ha]

theorem countEv_singleton_self (e : AttEvent) : countEv e [e] = 1 := by
  simp [countEv]

/-- C6: for two distinct devices a and b, enqueueing a failed record for
a and running the retry sweep for a both leave the entry of b in the
persisted store (key presence and ordered record list together) exactly
as it was, whatever the delivery outcomes for a are. -/
theorem c6_partition_isolation (snap : Snapshot) (a b : String)
    (rec : FailedRec) (deliver : AttEvent → Bool) (h : b ≠ a) :
    lookupSnap (store_failed_log snap a rec).1 b = lookupSnap snap b ∧
    lookupSnap (process_failed_logs deliver a snap).snap b =
      lookupSnap snap b := by
  constructor
  · cases snap with
    | missing =>
        simp [store_failed_log, lookupSnap, setKey, lookupStore, Ne.symm h]
    | malformed => rfl
    | good s =>
        simp [store_failed_log, lookupSnap, lookupStore_setKey_ne s a b _ h]
  · cases snap with
    | missing => rfl
    | malformed => rfl
    | good s =>
        cases hls : lookupStore s a with
        | none => simp [process_failed_logs, hls, lookupSnap]
        | some logs =>
            by_cases he :
              (List.foldl removeFirst logs
                (logs.filter (fun r => deliver r.log))).isEmpty
            · simp [process_failed_logs, hls, lookupSnap, he,
                lookupStore_delKey_ne s a b h]
            · simp [process_failed_logs, hls, lookupSnap, he,
                lookupStore_setKey_ne s a b _ h]

/-- C6 witness: isolation at a concrete two-device store. -/
theorem c6_partition_isolation_witness :
    lookupSnap (store_failed_log
        (Snapshot.good [("b", [⟨"t0", ⟨7, "ts0", 1⟩⟩])]) "a"
        ⟨"t1", ⟨8, "ts1", 1⟩⟩).1 "b" =
      lookupSnap (Snapshot.good [("b", [⟨"t0", ⟨7, "ts0", 1⟩⟩])]) "b" ∧
    lookupSnap (process_failed_logs (fun _ => true) "a"
        (Snapshot.good [("b", [⟨"t0", ⟨7, "ts0", 1⟩⟩])])).snap "b" =
      lookupSnap (Snapshot.good [("b", [⟨"t0", ⟨7, "ts0", 1⟩⟩])]) "b" :=
  c6_partition_isolation (Snapshot.good [("b", [⟨"t0", ⟨7, "ts0", 1⟩⟩])])
    "a" "b" ⟨"t1", ⟨8, "ts1", 1⟩⟩ (fun _ => true) (by decide)

theorem processLog_send_or_store (deliver : AttEvent → Bool) (l : RawLog)
    (a : AttEvent)
    (h : BatchAction.send a ∈ processLog deliver l ∨
      BatchAction.store a ∈ processLog deliver l) :
    l = RawLog.att a := by
  cases l with
  | att b =>
      by_cases hd : deliver b <;>
        rcases h with h | h <;> simp [processLog, hd] at h <;> simp [h]
  | unknown t =>
      rcases h with h | h <;> simp [processLog] at h

/-- C9: every send call and every enqueue into the failed-event store
made while processing a captured batch originates from an Attendance
record present in the batch, so a malformed or unknown-type raw record
is never forwarded to the delivery client nor stored; an unknown record
only produces a warning log line. -/
theorem c9_malformed_never_forwarded (deliver : AttEvent → Bool)
    (batch : List (Option RawLog)) (a : AttEvent) (t : Nat)
    (h : BatchAction.send a ∈ processBatch deliver batch ∨
      BatchAction.store a ∈ processBatch deliver batch) :
    some (RawLog.att a) ∈ batch ∧
    processLog deliver (RawLog.unknown t) = [BatchAction.warn t] := by
  refine ⟨?_, rfl⟩
  have hmem : ∃ l, l ∈ batch.filterMap id ∧
      (BatchAction.send a ∈ processLog deliver l ∨
        BatchAction.store a ∈ processLog deliver l) := by
    rcases h with h | h
    · rcases List.mem_flatMap.mp h with ⟨l, hl, hin⟩
      exact ⟨l, hl, Or.inl hin⟩
    · rcases List.mem_flatMap.mp h with ⟨l, hl, hin⟩
      exact ⟨l, hl, Or.inr hin⟩
  rcases hmem with ⟨l, hl, hin⟩
  have hla := processLog_send_or_store deliver l a hin
  subst hla
  rcases List.mem_filterMap.mp hl with ⟨o, ho, hoe⟩
  simp only [id] at hoe
  rw [← hoe]
  exact ho

/-- C9 witness: a batch holding one Attendance record whose delivery
fails; the store action for it traces back to that record. -/
theorem c9_malformed_never_forwarded_witness :
    some (RawLog.att ⟨7, "2024-01-01 09:00:00", 1⟩) ∈
      [some (RawLog.att ⟨7, "2024-01-01 09:00:00", 1⟩)] ∧
    processLog (fun _ => false) (RawLog.unknown 0) = [BatchAction.warn 0] :=
  c9_malformed_never_forwarded (fun _ => false)
    [some (RawLog.att ⟨7, "2024-01-01 09:00:00", 1⟩)]
    ⟨7, "2024-01-01 09:00:00", 1⟩ 0 (Or.inr (by decide))

/-- C3: the retry sweep keeps exactly the records whose delivery still
fails, in their original relative order: whenever the snapshot holds a
pending list for the device, the post-sweep pending list is that list
filtered to the records whose event the delivery function rejects; in
particular a pending list R1, R2, R3 where only the event of R2 is
delivered leaves the persisted list [R1, R3]. -/
theorem c3_sweep_ordering (deliver : AttEvent → Bool) (ip : String)
    (s : Store) :
    (∀ logs, lookupStore s ip = some logs →
      pendingOf (process_failed_logs deliver ip (Snapshot.good s)).snap ip =
        logs.filter (fun r => !(deliver r.log))) ∧
    (∀ R1 R2 R3 : FailedRec, lookupStore s ip = some [R1, R2, R3] →
      deliver R1.log = false → deliver R2.log = true →
      deliver R3.log = false →
      pendingOf (process_failed_logs deliver ip (Snapshot.good s)).snap ip =
        [R1, R3]) := by
  constructor
  · intro logs h
    exact pendingOf_process_good deliver ip s logs h
  · intro R1 R2 R3 h h1 h2 h3
    rw [pendingOf_process_good deliver ip s _ h]
    simp [List.filter, h1, h2, h3]

/-- C3 witness: a concrete three-record queue where only the middle
event is accepted on retry. -/
theorem c3_sweep_ordering_witness :
    pendingOf (process_failed_logs (fun e => e.user_id == 2) "a"
        (Snapshot.good [("a",
          [⟨"t1", ⟨1, "x", 0⟩⟩, ⟨"t2", ⟨2, "y", 0⟩⟩,
            ⟨"t3", ⟨3, "z", 0⟩⟩])])).snap "a" =
      [⟨"t1", ⟨1, "x", 0⟩⟩, ⟨"t3", ⟨3, "z", 0⟩⟩] :=
  (c3_sweep_ordering (fun e => e.user_id == 2) "a"
      [("a", [⟨"t1", ⟨1, "x", 0⟩⟩, ⟨"t2", ⟨2, "y", 0⟩⟩,
        ⟨"t3", ⟨3, "z", 0⟩⟩])]).2
    ⟨"t1", ⟨1, "x", 0⟩⟩ ⟨"t2", ⟨2, "y", 0⟩⟩ ⟨"t3", ⟨3, "z", 0⟩⟩
    (by decide) (by decide) (by decide) (by decide)

/-- C1 counterexample: when the persisted snapshot is unreadable,
store_failed_log catches the exception and writes nothing, so the failed
event is dropped rather than enqueued, refuting the claim that every
event whose delivery fails ends up in the store. -/
theorem c1_counterexample :
    store_failed_log Snapshot.malformed "10.0.0.1"
        ⟨"2024-01-01 09:00:00", ⟨7, "2024-01-01 09:00:00", 1⟩⟩ =
      (Snapshot.malformed, false) ∧
    (⟨"2024-01-01 09:00:00", ⟨7, "2024-01-01 09:00:00", 1⟩⟩ : FailedRec) ∉
      pendingOf (store_failed_log Snapshot.malformed "10.0.0.1"
        ⟨"2024-01-01 09:00:00", ⟨7, "2024-01-01 09:00:00", 1⟩⟩).1
        "10.0.0.1" := by
  decide

/-- C1 amended: provided the persisted snapshot is readable (on an
unreadable snapshot the enqueue is skipped and the event lost, per the
persistence-error policy), an event failing delivery is enqueued under
its device key; a later sweep whose delivery function accepts that event
delivers it exactly once and leaves no record carrying it pending.  The
event is assumed not already recorded for the device, as for a freshly
captured event. -/
theorem c1_round_trip (s : Store) (ip : String) (rec : FailedRec)
    (deliver : AttEvent → Bool)
    (hfresh : ∀ r ∈ pendingOf (Snapshot.good s) ip, r.log ≠ rec.log)
    (hdel : deliver rec.log = true) :
    rec ∈ pendingOf (store_failed_log (Snapshot.good s) ip rec).1 ip ∧
    countEv rec.log (process_failed_logs deliver ip
        (store_failed_log (Snapshot.good s) ip rec).1).delivered = 1 ∧
    ∀ r ∈ pendingOf (process_failed_logs deliver ip
        (store_failed_log (Snapshot.good s) ip rec).1).snap ip,
      r.log ≠ rec.log := by
  have hfresh' : ∀ r ∈ (lookupStore s ip).getD [], r.log ≠ rec.log := by
    intro r hr
    exact hfresh r (by simpa [pendingOf] using hr)
  have hlk : lookupStore (setKey s ip ((lookupStore s ip).getD [] ++ [rec])) ip
      = some ((lookupStore s ip).getD [] ++ [rec]) :=
    lookupStore_setKey_self s ip _
  have hsnap1 : (store_failed_log (Snapshot.good s) ip rec).1 =
      Snapshot.good (setKey s ip ((lookupStore s ip).getD [] ++ [rec])) := rfl
  refine ⟨?_, ?_, ?_⟩
  · rw [hsnap1]
    simp [pendingOf, hlk]
  · rw [hsnap1]
    have hdeliv : (process_failed_logs deliver ip
        (Snapshot.good (setKey s ip ((lookupStore s ip).getD [] ++ [rec])))).delivered =
        (((lookupStore s ip).getD [] ++ [rec]).filter
          (fun r => deliver r.log)).map (fun r => r.log) := by
      simp [process_failed_logs, hlk]
    rw [hdeliv, List.filter_append,
      show List.filter (fun r => deliver r.log) [rec] = [rec] from by
        simp [hdel],
      List.map_append, countEv_append,
      countEv_eq_zero rec.log _ (by
        intro x hx
        rcases List.mem_map.mp hx with ⟨r, hrf, hre⟩
        rcases List.mem_filter.mp hrf with ⟨hro, _⟩
        exact hre ▸ hfresh' r hro)]
    simp [countEv]
  · rw [hsnap1, pendingOf_process_good deliver ip _ _ hlk]
    intro r hr
    rcases List.mem_filter.mp hr with ⟨hro, hnp⟩
    rcases List.mem_append.mp hro with hro | hro
    · exact hfresh' r hro
    · have hre : r = rec := by simpa using hro
      subst hre
      simp [hdel] at hnp

/-- C1 witness: the round trip at an initially empty store with a
delivery function that now always succeeds. -/
theorem c1_round_trip_witness :
    (⟨"2024-01-01 09:00:00", ⟨7, "2024-01-01 09:00:00", 1⟩⟩ : FailedRec) ∈
      pendingOf (store_failed_log (Snapshot.good []) "10.0.0.1"
        ⟨"2024-01-01 09:00:00", ⟨7, "2024-01-01 09:00:00", 1⟩⟩).1
        "10.0.0.1" ∧
    countEv (⟨7, "2024-01-01 09:00:00", 1⟩ : AttEvent)
      (process_failed_logs (fun _ => true) "10.0.0.1"
        (store_failed_log (Snapshot.good []) "10.0.0.1"
          ⟨"2024-01-01 09:00:00", ⟨7, "2024-01-01 09:00:00", 1⟩⟩).1).delivered
      = 1 :=
  ⟨(c1_round_trip [] "10.0.0.1"
      ⟨"2024-01-01 09:00:00", ⟨7, "2024-01-01 09:00:00", 1⟩⟩
      (fun _ => true) (by decide) rfl).1,
    (c1_round_trip [] "10.0.0.1"
      ⟨"2024-01-01 09:00:00", ⟨7, "2024-01-01 09:00:00", 1⟩⟩
      (fun _ => true) (by decide) rfl).2.1⟩

theorem connectAttempt_not_in_capturePhase (deliver : AttEvent → Bool)
    (cap : CaptureOutcome) (st : DevState) (b : Bool) :
    LoopAction.connectAttempt b ∉ (capturePhase deliver cap st).2 := by
  cases cap with
  | fault => simp [capturePhase]
  | noneResult => simp [capturePhase]
  | batch ls =>
      by_cases he : (ls.filterMap id).isEmpty <;>
        simp [capturePhase, he]

/-- C2: at the failing input, a connected session whose live_capture
raises, the loop body logs the fault and sleeps 10 seconds but leaves
self.conn set, so the next iteration, whatever the driver then offers,
never attempts connect(): the reconnect the claim describes does not
happen, because the guard `not self.conn` stays false forever. -/
theorem c2_fault_keeps_conn (deliver : AttEvent → Bool) (st : DevState)
    (h : st.conn = true) :
    loopIter true deliver CaptureOutcome.fault st =
      (st, [LoopAction.captureCall, LoopAction.logError,
        LoopAction.sleep 10]) ∧
    ∀ (ok : Bool) (d : AttEvent → Bool) (cap : CaptureOutcome) (b : Bool),
      LoopAction.connectAttempt b ∉ (loopIter ok d cap st).2 := by
  constructor
  · simp [loopIter, h, capturePhase]
  · intro ok d cap b
    rw [show loopIter ok d cap st = capturePhase d cap st from by
      simp [loopIter, h]]
    exact connectAttempt_not_in_capturePhase d cap st b

/-- C2 witness: the faulting iteration at a concrete connected state,
and no connect attempt in the iteration that follows it. -/
theorem c2_fault_keeps_conn_witness :
    loopIter true (fun _ => true) CaptureOutcome.fault
        ⟨true, statusConnected⟩ =
      (⟨true, statusConnected⟩, [LoopAction.captureCall,
        LoopAction.logError, LoopAction.sleep 10]) ∧
    LoopAction.connectAttempt true ∉
      (loopIter true (fun _ => true) CaptureOutcome.fault
        ⟨true, statusConnected⟩).2 ∧
    LoopAction.connectAttempt false ∉
      (loopIter true (fun _ => true) CaptureOutcome.fault
        ⟨true, statusConnected⟩).2 :=
  ⟨(c2_fault_keeps_conn (fun _ => true) ⟨true, statusConnected⟩ rfl).1,
    (c2_fault_keeps_conn (fun _ => true) ⟨true, statusConnected⟩ rfl).2
      true (fun _ => true) CaptureOutcome.fault true,
    (c2_fault_keeps_conn (fun _ => true) ⟨true, statusConnected⟩ rfl).2
      true (fun _ => true) CaptureOutcome.fault false⟩
